import Mathlib

/-!
Shallow embedding of `src/src/LedWorm.ino` (skarlsso/LedWorm) and proofs
about its components: the direction/speed decoder, the auto-calibrating
analog normalizer, the counting trigger, the speed-to-trigger-level curve,
the animation state machine, the color-table construction, and the loop
body's render order.

Machine integers from the C++ code are modelled as `Int`/`Nat` with
explicit `% 2^w` where the width matters.  Constants from the source:
`NUM_LEDS = 144`, `NUM_RAINBOW_LEDS = 12`, `MAX_INTENSITY = 30`,
`MEDIUM_INTENSITY = 30 / 4 = 7`.
-/

set_option maxHeartbeats 1000000
set_option linter.unnecessarySeqFocus false
set_option linter.unusedVariables false

namespace LedWorm

/-- Embedding of `set_direction_and_speed` (LedWorm.ino lines 135-155).
The C++ writes `direction` and `speed` through out-parameters; here they
are returned as a pair `(direction, speed)`.  The source:
`value -= 512; if (abs(value) < 32) value = 0;
 direction = 1 if value < 0, -1 if value > 0, 0 otherwise; speed = abs(value)`. -/
def set_direction_and_speed (value : Int) : Int × Int :=
  let v := value - 512
  let v2 := if |v| < 32 then 0 else v
  let dir : Int := if v2 < 0 then 1 else if 0 < v2 then -1 else 0
  (dir, |v2|)

/-- Closed form of the decoder, proved from the embedding. -/
lemma set_direction_and_speed_eq (value : Int) :
    set_direction_and_speed value =
      if |value - 512| < 32 then (0, 0)
      else if value < 512 then (1, |value - 512|)
      else (-1, |value - 512|) := by
  unfold set_direction_and_speed
  rcases abs_cases (value - 512) with ⟨h1, h2⟩ | ⟨h1, h2⟩ <;>
    simp only [h1] <;> split_ifs <;> simp_all <;> omega

/-- C2 counterexample: the input 480 lies inside the claimed dead zone
`|v - ceiling/2| < 32` (both with integer `ceiling/2 = 511` and with the
exact center `511.5`, encoded as `|2*v - 1023| < 64`), yet the decoder
does not return `(0, 0)` there: it returns `(1, 32)`. -/
theorem C2_decode_dead_zone_counterexample :
    (|(480 : Int) - 511| < 32 ∧ |2 * (480 : Int) - 1023| < 64) ∧
    set_direction_and_speed 480 ≠ (0, 0) := by
  decide

/-- C2 (amended): the decoder's dead zone is centered at 512, not at
`ceiling/2`.  For `v ∈ [0, 1023]`: it returns `(0, 0)` exactly when
`|v - 512| < 32`; at `|v - 512| = 32` it returns a nonzero direction;
and for `32 ≤ |v - 512|` the direction is `+1` when the centered value
`v - 512` is negative and `-1` when it is positive, with speed
`|v - 512|`. -/
theorem C2_decode_dead_zone (v : Int) (h0 : 0 ≤ v) (h1 : v ≤ 1023) :
    (set_direction_and_speed v = (0, 0) ↔ |v - 512| < 32) ∧
    (|v - 512| = 32 → (set_direction_and_speed v).1 ≠ 0) ∧
    (32 ≤ |v - 512| →
      (set_direction_and_speed v).1 = (if v < 512 then 1 else -1) ∧
      (set_direction_and_speed v).2 = |v - 512|) := by
  rw [set_direction_and_speed_eq]
  rcases abs_cases (v - 512) with ⟨h2, h3⟩ | ⟨h2, h3⟩ <;>
    rw [h2] <;> split_ifs <;> simp_all [Prod.ext_iff] <;> omega

/-- C2 witness: the amended dead-zone characterization instantiated at
the concrete input 600. -/
theorem C2_decode_dead_zone_witness :
    (set_direction_and_speed 600 = (0, 0) ↔ |(600 : Int) - 512| < 32) ∧
    (|(600 : Int) - 512| = 32 → (set_direction_and_speed 600).1 ≠ 0) ∧
    (32 ≤ |(600 : Int) - 512| →
      (set_direction_and_speed 600).1 = (if (600 : Int) < 512 then 1 else -1) ∧
      (set_direction_and_speed 600).2 = |(600 : Int) - 512|) :=
  C2_decode_dead_zone 600 (by decide) (by decide)

/-- C1 counterexample: the input 544 is outside the dead zone in the
claim's sense (both readings of `ceiling/2`), yet decoding the mirrored
input `1023 - 544 = 479` does not give the same speed magnitude:
`decode 544 = (-1, 32)` while `decode 479 = (1, 33)`. -/
theorem C1_mirror_counterexample :
    (32 ≤ |(544 : Int) - 511| ∧ 64 ≤ |2 * (544 : Int) - 1023|) ∧
    ¬((set_direction_and_speed (1023 - 544)).1 = -(set_direction_and_speed 544).1 ∧
      (set_direction_and_speed (1023 - 544)).2 = (set_direction_and_speed 544).2) := by
  decide

/-- C1 (amended): the decoder is odd-symmetric about 512, i.e. the
mirror is `1024 - v`, not `ceiling - v = 1023 - v`.  For every
`v ∈ [1, 1023]` with `|v - 512| ≥ 32`, decoding `1024 - v` yields the
opposite direction of decoding `v` and the same speed magnitude. -/
theorem C1_mirror_antisymmetry (v : Int) (h0 : 1 ≤ v) (h1 : v ≤ 1023)
    (h2 : 32 ≤ |v - 512|) :
    (set_direction_and_speed (1024 - v)).1 = -(set_direction_and_speed v).1 ∧
    (set_direction_and_speed (1024 - v)).2 = (set_direction_and_speed v).2 := by
  rw [set_direction_and_speed_eq, set_direction_and_speed_eq]
  have hm : (1024 : Int) - v - 512 = -(v - 512) := by ring
  rw [hm, abs_neg]
  rcases abs_cases (v - 512) with ⟨h3, h4⟩ | ⟨h3, h4⟩ <;>
    rw [h3] at h2 ⊢ <;> split_ifs <;> simp_all <;> omega

/-- C1 witness: the amended mirror symmetry instantiated at the concrete
input 544 (mirror 480). -/
theorem C1_mirror_antisymmetry_witness :
    (set_direction_and_speed (1024 - 544)).1 = -(set_direction_and_speed 544).1 ∧
    (set_direction_and_speed (1024 - 544)).2 = (set_direction_and_speed 544).2 :=
  C1_mirror_antisymmetry 544 (by decide) (by decide) (by decide)

/-- C10: for every input `v ∈ [0, 1023]` the decoder's speed lies in
`[0, 512]`; speed 512 forces direction `+1` and `v = 0`; with direction
`-1` the speed is at most 511; and both extremes are reached:
`decode 0 = (1, 512)` and `decode 1023 = (-1, 511)`. -/
theorem C10_speed_range (v : Int) (h0 : 0 ≤ v) (h1 : v ≤ 1023) :
    0 ≤ (set_direction_and_speed v).2 ∧ (set_direction_and_speed v).2 ≤ 512 ∧
    ((set_direction_and_speed v).2 = 512 → (set_direction_and_speed v).1 = 1 ∧ v = 0) ∧
    ((set_direction_and_speed v).1 = -1 → (set_direction_and_speed v).2 ≤ 511) ∧
    set_direction_and_speed 0 = (1, 512) ∧
    set_direction_and_speed 1023 = (-1, 511) := by
  refine ⟨?_, ?_, ?_, ?_, by decide, by decide⟩ <;>
    rw [set_direction_and_speed_eq] <;>
    rcases abs_cases (v - 512) with ⟨h2, h3⟩ | ⟨h2, h3⟩ <;>
      rw [h2] <;> split_ifs <;> simp_all <;> omega

/-- C10 witness: the speed-range theorem instantiated at `v = 0`. -/
theorem C10_speed_range_witness :
    0 ≤ (set_direction_and_speed 0).2 ∧ (set_direction_and_speed 0).2 ≤ 512 ∧
    ((set_direction_and_speed 0).2 = 512 → (set_direction_and_speed 0).1 = 1 ∧ (0 : Int) = 0) ∧
    ((set_direction_and_speed 0).1 = -1 → (set_direction_and_speed 0).2 ≤ 511) ∧
    set_direction_and_speed 0 = (1, 512) ∧
    set_direction_and_speed 1023 = (-1, 511) :=
  C10_speed_range 0 (by decide) (by decide)

/-- Embedding of `CountTrigger` (LedWorm.ino lines 216-234).  Both the
counter and the level are `uint32_t` in the source; the counter
increment is therefore taken modulo `2^32`. -/
structure CountTrigger where
  counter : Nat
  level : Nat
deriving Repr, DecidableEq

/-- `CountTrigger::CountTrigger()` : both fields start at 0. -/
def CountTrigger.init : CountTrigger := ⟨0, 0⟩

/-- `CountTrigger::set_trigger_level`. -/
def CountTrigger.set_trigger_level (t : CountTrigger) (level : Nat) : CountTrigger :=
  ⟨t.counter, level⟩

/-- `CountTrigger::tick()` : increments the counter (as `uint32_t`);
if it reaches the level, resets it to 0 and reports `true`. -/
def CountTrigger.tick (t : CountTrigger) : Bool × CountTrigger :=
  let c := (t.counter + 1) % 2 ^ 32
  if t.level ≤ c then (true, ⟨0, t.level⟩) else (false, ⟨c, t.level⟩)

/-- State of a trigger after `n` calls to `tick()`. -/
def CountTrigger.tickN (t : CountTrigger) : Nat → CountTrigger
  | 0 => t
  | n + 1 => ((t.tickN n).tick).2

/-- Whether the `n`-th call (1-based) to `tick()` on a freshly reset
trigger with level `L` returns `true`. -/
def firedAt (L n : Nat) : Bool :=
  (((CountTrigger.init.set_trigger_level L).tickN (n - 1)).tick).1

lemma CountTrigger.tickN_init (L : Nat) (hL : 1 ≤ L) (hL32 : L < 2 ^ 32) :
    ∀ n, (CountTrigger.init.set_trigger_level L).tickN n =
      ⟨n % L, L⟩ := by
  intro n
  induction n with
  | zero => simp [tickN, init, set_trigger_level, Nat.mod_eq_of_lt hL]
  | succ n ih =>
    have hlt : n % L < L := Nat.mod_lt _ (by omega)
    have hsmall : (n % L + 1) % 2 ^ 32 = n % L + 1 := Nat.mod_eq_of_lt (by omega)
    have hsucc : (n % L + 1) % L = (n + 1) % L := Nat.mod_add_mod n L 1
    rw [tickN, ih, tick]
    simp only [hsmall]
    split_ifs with h
    · have he : n % L + 1 = L := by omega
      have : (n + 1) % L = 0 := by rw [← hsucc, he, Nat.mod_self]
      simp [this]
    · have : (n + 1) % L = n % L + 1 := by
        rw [← hsucc, Nat.mod_eq_of_lt (by omega)]
      simp [this]

/-- C3: a freshly constructed (or just-reset) trigger with constant
level `L ≥ 1` (and `L < 2^32`, the width of the counter) fires on its
`n`-th `tick()` call exactly when `n` is a multiple of `L`: the first
`L - 1` calls return `false`, the `L`-th returns `true`, and thereafter
it fires exactly once every `L` calls. -/
theorem C3_trigger_period (L n : Nat) (hL : 1 ≤ L) (hL32 : L < 2 ^ 32)
    (hn : 1 ≤ n) :
    (firedAt L n = true ↔ n % L = 0) ∧
    (n < L → firedAt L n = false) ∧
    firedAt L L = true := by
  obtain ⟨m, rfl⟩ : ∃ m, n = m + 1 := ⟨n - 1, by omega⟩
  have hlt : m % L < L := Nat.mod_lt _ (by omega)
  have hsmall : (m % L + 1) % 2 ^ 32 = m % L + 1 := Nat.mod_eq_of_lt (by omega)
  have hsucc : (m % L + 1) % L = (m + 1) % L := Nat.mod_add_mod m L 1
  have key : ∀ k, 1 ≤ k → (firedAt L k = true ↔ k % L = 0) := by
    intro k hk
    obtain ⟨j, rfl⟩ : ∃ j, k = j + 1 := ⟨k - 1, by omega⟩
    have hltj : j % L < L := Nat.mod_lt _ (by omega)
    have hsmallj : (j % L + 1) % 2 ^ 32 = j % L + 1 := Nat.mod_eq_of_lt (by omega)
    have hsuccj : (j % L + 1) % L = (j + 1) % L := Nat.mod_add_mod j L 1
    unfold firedAt
    rw [Nat.add_sub_cancel, CountTrigger.tickN_init L hL hL32, CountTrigger.tick]
    simp only [hsmallj]
    split_ifs with h
    · have he : j % L + 1 = L := by omega
      simp only [eq_self_iff_true, true_iff]
      rw [← hsuccj, he, Nat.mod_self]
    · simp only [Bool.false_eq_true, false_iff]
      rw [← hsuccj, Nat.mod_eq_of_lt (by omega)]
      omega
  refine ⟨key _ hn, ?_, ?_⟩
  · intro hmL
    cases hf : firedAt L (m + 1)
    · rfl
    · exfalso
      have h1 := (key _ hn).mp hf
      have h2 : (m + 1) % L = m + 1 := Nat.mod_eq_of_lt hmL
      omega
  · rw [key L hL]
    exact Nat.mod_self L

/-- C3 witness: with level 3, the third call fires. -/
theorem C3_trigger_period_witness :
    (firedAt 3 3 = true ↔ 3 % 3 = 0) ∧
    (3 < 3 → firedAt 3 3 = false) ∧
    firedAt 3 3 = true :=
  C3_trigger_period 3 3 (by decide) (by norm_num) (by decide)

/-- Calibration state of `AnalogReader` (LedWorm.ino lines 90-132): the
observed `_min` and `_max` (C++ `int`).  The constructor initializes
`_min = 1023`, `_max = 0`. -/
structure ARState where
  rmin : Int
  rmax : Int
deriving Repr, DecidableEq

/-- `AnalogReader::AnalogReader` initial calibration state. -/
def ARState.init : ARState := ⟨1023, 0⟩

/-- The min/max recording step at the top of `AnalogReader::get_value`:
`_min = (value < _min) ? value : _min; _max = (value > _max) ? value : _max;`. -/
def ARState.update (s : ARState) (value : Int) : ARState :=
  ⟨if value < s.rmin then value else s.rmin,
   if s.rmax < value then value else s.rmax⟩

/-- Embedding of `AnalogReader::get_value`, with the raw sample `value`
passed as an argument (the source obtains it from `analogRead(_pin)`).
Returns the normalized value together with the updated calibration
state.  The product `uint32_t(_top) * relative` is computed in 32-bit
width in the source, modelled by an explicit `% 2 ^ 32`. -/
def get_value (top : Int) (s : ARState) (value : Int) : Int × ARState :=
  let s' := s.update value
  let range := s'.rmax - s'.rmin
  let relative := value - s'.rmin
  (if range = 0 then top else top * relative % 2 ^ 32 / range, s')

/-- The calibration state after feeding a sequence of raw samples. -/
def ARState.run (samples : List Int) : ARState :=
  samples.foldl ARState.update ARState.init

lemma ARState.update_bounds (s : ARState) (v : Int)
    (hs : 0 ≤ s.rmin ∧ s.rmin ≤ 1023 ∧ 0 ≤ s.rmax ∧ s.rmax ≤ 1023)
    (hv : 0 ≤ v ∧ v ≤ 1023) :
    0 ≤ (s.update v).rmin ∧ (s.update v).rmin ≤ 1023 ∧
    0 ≤ (s.update v).rmax ∧ (s.update v).rmax ≤ 1023 := by
  unfold update
  split_ifs <;> simp_all

lemma ARState.foldl_bounds (samples : List Int) :
    ∀ s : ARState,
      (0 ≤ s.rmin ∧ s.rmin ≤ 1023 ∧ 0 ≤ s.rmax ∧ s.rmax ≤ 1023) →
      (∀ x ∈ samples, 0 ≤ x ∧ x ≤ 1023) →
      0 ≤ (samples.foldl ARState.update s).rmin ∧
      (samples.foldl ARState.update s).rmin ≤ 1023 ∧
      0 ≤ (samples.foldl ARState.update s).rmax ∧
      (samples.foldl ARState.update s).rmax ≤ 1023 := by
  induction samples with
  | nil => intro s hs _; exact hs
  | cons x xs ih =>
    intro s hs hall
    have hx := hall x (by simp)
    exact ih (s.update x) (ARState.update_bounds s x hs hx)
      (fun y hy => hall y (by simp [hy]))

lemma ARState.run_bounds (samples : List Int)
    (h : ∀ x ∈ samples, 0 ≤ x ∧ x ≤ 1023) :
    0 ≤ (ARState.run samples).rmin ∧ (ARState.run samples).rmin ≤ 1023 ∧
    0 ≤ (ARState.run samples).rmax ∧ (ARState.run samples).rmax ≤ 1023 :=
  ARState.foldl_bounds samples ARState.init (by norm_num [ARState.init]) h

/-- C4: against any calibration history of raw samples in `[0, 1023]`,
reading one more raw sample `v ∈ [0, 1023]` with `top = 1023` yields a
normalized value in `[0, 1023]`, and the intermediate product
`top * relative = 1023 * (v - min')` fits in 32 bits (so the `% 2 ^ 32`
in the model never truncates). -/
theorem C4_reader_output_range (samples : List Int)
    (hs : ∀ x ∈ samples, 0 ≤ x ∧ x ≤ 1023)
    (v : Int) (hv0 : 0 ≤ v) (hv1 : v ≤ 1023) :
    0 ≤ (get_value 1023 (ARState.run samples) v).1 ∧
    (get_value 1023 (ARState.run samples) v).1 ≤ 1023 ∧
    0 ≤ 1023 * (v - ((ARState.run samples).update v).rmin) ∧
    1023 * (v - ((ARState.run samples).update v).rmin) < 2 ^ 32 := by
  have hb := ARState.run_bounds samples hs
  have hle : ((ARState.run samples).update v).rmin ≤ v ∧
      v ≤ ((ARState.run samples).update v).rmax ∧
      0 ≤ ((ARState.run samples).update v).rmin := by
    unfold ARState.update
    split_ifs <;> simp_all
  obtain ⟨hminle, hvle, hmin0⟩ := hle
  have hrel0 : 0 ≤ v - ((ARState.run samples).update v).rmin := by omega
  have hrel1 : v - ((ARState.run samples).update v).rmin ≤ 1023 := by omega
  have hprod0 : 0 ≤ 1023 * (v - ((ARState.run samples).update v).rmin) := by
    positivity
  have hprod1 : 1023 * (v - ((ARState.run samples).update v).rmin) < 2 ^ 32 := by
    nlinarith
  refine ⟨?_, ?_, hprod0, hprod1⟩ <;>
  · simp only [get_value]
    rw [Int.emod_eq_of_lt hprod0 hprod1]
    split_ifs with hrange
    · omega
    · have hrangepos :
          0 < ((ARState.run samples).update v).rmax -
            ((ARState.run samples).update v).rmin := by omega
      have h1 : 0 ≤ 1023 * (v - ((ARState.run samples).update v).rmin) /
          (((ARState.run samples).update v).rmax -
            ((ARState.run samples).update v).rmin) :=
        Int.ediv_nonneg hprod0 (le_of_lt hrangepos)
      have h2 : 1023 * (v - ((ARState.run samples).update v).rmin) ≤
          1023 * (((ARState.run samples).update v).rmax -
            ((ARState.run samples).update v).rmin) := by nlinarith
      have h3 : 1023 * (v - ((ARState.run samples).update v).rmin) /
          (((ARState.run samples).update v).rmax -
            ((ARState.run samples).update v).rmin) ≤
          1023 * (((ARState.run samples).update v).rmax -
            ((ARState.run samples).update v).rmin) /
          (((ARState.run samples).update v).rmax -
            ((ARState.run samples).update v).rmin) :=
        Int.ediv_le_ediv hrangepos h2
      have h4 : 1023 * (((ARState.run samples).update v).rmax -
            ((ARState.run samples).update v).rmin) /
          (((ARState.run samples).update v).rmax -
            ((ARState.run samples).update v).rmin) = 1023 :=
        Int.mul_ediv_cancel 1023 (by omega)
      omega

/-- C4 witness: the output-range theorem instantiated with the sample
history `[100, 900]` and the fresh sample `500`. -/
theorem C4_reader_output_range_witness :
    0 ≤ (get_value 1023 (ARState.run [100, 900]) 500).1 ∧
    (get_value 1023 (ARState.run [100, 900]) 500).1 ≤ 1023 ∧
    0 ≤ 1023 * (500 - ((ARState.run [100, 900]).update 500).rmin) ∧
    1023 * (500 - ((ARState.run [100, 900]).update 500).rmin) < 2 ^ 32 :=
  C4_reader_output_range [100, 900] (by decide) 500 (by decide) (by decide)

lemma ARState.foldl_const (v : Int) (hv0 : 0 ≤ v) (hv1 : v ≤ 1023)
    (samples : List Int) :
    ∀ s : ARState, (s = ARState.init ∨ s = ⟨v, v⟩) →
      (∀ x ∈ samples, x = v) →
      (samples.foldl ARState.update s = ARState.init ∨
       samples.foldl ARState.update s = ⟨v, v⟩) := by
  have hupd_init : ARState.init.update v = ⟨v, v⟩ := by
    unfold ARState.update ARState.init
    split_ifs <;> simp_all <;> omega
  have hupd_vv : ARState.update ⟨v, v⟩ v = ⟨v, v⟩ := by
    unfold ARState.update
    split_ifs <;> simp_all
  induction samples with
  | nil => intro s hs _; exact hs
  | cons x xs ih =>
    intro s hs hall
    have hx : x = v := hall x (by simp)
    have hxs : ∀ y ∈ xs, y = v := fun y hy => hall y (by simp [hy])
    have hnext : s.update x = ⟨v, v⟩ := by
      rcases hs with rfl | rfl <;> rw [hx] <;> [exact hupd_init; exact hupd_vv]
    simp only [List.foldl_cons, hnext]
    exact ih ⟨v, v⟩ (Or.inr rfl) hxs

lemma ARState.run_const (v : Int) (hv0 : 0 ≤ v) (hv1 : v ≤ 1023)
    (samples : List Int) (h : ∀ x ∈ samples, x = v) :
    ARState.run samples = ARState.init ∨ ARState.run samples = ⟨v, v⟩ :=
  ARState.foldl_const v hv0 hv1 samples ARState.init (Or.inl rfl) h

/-- C5: a normalizer that has seen only one distinct raw value so far
(including the case of no previous samples at all, i.e. its very first
call) returns exactly the ceiling 1023 on the next read of that value:
the zero-width calibration range is mapped to `top`, not to 0 and not
through a division by zero. -/
theorem C5_single_value_returns_ceiling (samples : List Int) (v : Int)
    (hv0 : 0 ≤ v) (hv1 : v ≤ 1023) (h : ∀ x ∈ samples, x = v) :
    (get_value 1023 (ARState.run samples) v).1 = 1023 := by
  have hupd_init : ARState.init.update v = ⟨v, v⟩ := by
    unfold ARState.update ARState.init
    split_ifs <;> simp_all <;> omega
  have hupd_vv : ARState.update ⟨v, v⟩ v = ⟨v, v⟩ := by
    unfold ARState.update
    split_ifs <;> simp_all
  rcases ARState.run_const v hv0 hv1 samples h with hrun | hrun <;>
    rw [hrun] <;> simp [get_value, hupd_init, hupd_vv]

/-- C5 witness: a fresh normalizer (empty history) reading 700 returns
the ceiling 1023. -/
theorem C5_single_value_returns_ceiling_witness :
    (get_value 1023 (ARState.run []) 700).1 = 1023 :=
  C5_single_value_returns_ceiling [] 700 (by decide) (by decide) (by decide)

/-- Embedding of `reverse_and_expo` (LedWorm.ino lines 236-247).  The
source computes `value = 512 - abs(value); if (value == 0) value = 1;`
and then returns `1 + pow(2, value / 64.0)`, a `double` computation
truncated to `int` on return.  The (positive) floating-point result is
modelled by its idealized real-valued semantics: real exponentiation
and the floor function. -/
noncomputable def reverse_and_expo (value : Int) : Int :=
  let v := 512 - |value|
  let v2 := if v = 0 then 1 else v
  1 + ⌊(2 : ℝ) ^ ((v2 : ℝ) / 64)⌋

lemma reverse_and_expo_zero : reverse_and_expo 0 = 257 := by
  unfold reverse_and_expo
  norm_num

lemma reverse_and_expo_max_speed : reverse_and_expo 512 = 2 := by
  unfold reverse_and_expo
  norm_num
  have h1 : (1 : ℝ) ≤ (2 : ℝ) ^ ((1 : ℝ) / 64) := by
    apply Real.one_le_rpow <;> norm_num
  have h2 : (2 : ℝ) ^ ((1 : ℝ) / 64) < 2 := by
    calc (2 : ℝ) ^ ((1 : ℝ) / 64) < (2 : ℝ) ^ (1 : ℝ) := by
          rw [Real.rpow_lt_rpow_left_iff] <;> norm_num
      _ = 2 := Real.rpow_one 2
  have h3 : ⌊(2 : ℝ) ^ ((1 : ℝ) / 64)⌋ = 1 := by
    rw [Int.floor_eq_iff]
    constructor
    · exact_mod_cast h1
    · push_cast
      linarith
  rw [h3]
  norm_num

/-- C6: for every speed in `[0, 512]` the computed trigger level is at
least 2 (including at the maximum speed, where the folded value 0 is
clamped to 1), and the level at speed 0 (the value 257) is strictly
greater than the level at speed 512 (the value 2). -/
theorem C6_trigger_level_bounds (speed : Int) (h0 : 0 ≤ speed)
    (h1 : speed ≤ 512) :
    2 ≤ reverse_and_expo speed ∧
    reverse_and_expo 512 < reverse_and_expo 0 := by
  constructor
  · have hv : (1 : Int) ≤ (if 512 - |speed| = 0 then 1 else 512 - |speed|) := by
      rw [abs_of_nonneg h0]
      split_ifs <;> omega
    have hw : (1 : ℝ) ≤ ((if 512 - |speed| = 0 then 1 else 512 - |speed| : Int) : ℝ) := by
      exact_mod_cast hv
    have hexp : (0 : ℝ) ≤ ((if 512 - |speed| = 0 then 1 else 512 - |speed| : Int) : ℝ) / 64 := by
      linarith
    have hpow : (1 : ℝ) ≤ (2 : ℝ) ^
        (((if 512 - |speed| = 0 then 1 else 512 - |speed| : Int) : ℝ) / 64) :=
      Real.one_le_rpow (by norm_num) hexp
    have hfl : (1 : Int) ≤ ⌊(2 : ℝ) ^
        (((if 512 - |speed| = 0 then 1 else 512 - |speed| : Int) : ℝ) / 64)⌋ :=
      Int.le_floor.mpr (by exact_mod_cast hpow)
    have hgoal : reverse_and_expo speed =
        1 + ⌊(2 : ℝ) ^
          (((if 512 - |speed| = 0 then 1 else 512 - |speed| : Int) : ℝ) / 64)⌋ := rfl
    rw [hgoal]
    omega
  · rw [reverse_and_expo_zero, reverse_and_expo_max_speed]
    norm_num

/-- C6 witness: the trigger-level bounds instantiated at speed 0. -/
theorem C6_trigger_level_bounds_witness :
    2 ≤ reverse_and_expo 0 ∧ reverse_and_expo 512 < reverse_and_expo 0 :=
  C6_trigger_level_bounds 0 (by decide) (by decide)

/-- `Settings` (LedWorm.ino lines 161-182): the decoded pot readings,
recomputed every loop iteration. -/
structure Settings where
  steps_direction : Int
  steps_speed : Int
  color_direction : Int
  color_speed : Int
deriving Repr, DecidableEq

/-- `State` (LedWorm.ino lines 184-214): the worm's leading LED index
and the color phase index (both C++ `int`). -/
structure State where
  start_led : Int
  color_index : Int
deriving Repr, DecidableEq

/-- `State::step_leds`: `start_led++ % NUM_LEDS` when the direction is
positive, `(start_led - 1 + NUM_LEDS) % NUM_LEDS` when negative, no
change when zero (`NUM_LEDS = 144`). -/
def State.step_leds (st : State) (settings : Settings) : State :=
  if 0 < settings.steps_direction then
    ⟨(st.start_led + 1) % 144, st.color_index⟩
  else if settings.steps_direction < 0 then
    ⟨(st.start_led - 1 + 144) % 144, st.color_index⟩
  else
    st

/-- `State::step_color`: the same modular stepping for the color phase
index modulo `NUM_RAINBOW_LEDS = 12`. -/
def State.step_color (st : State) (settings : Settings) : State :=
  if 0 < settings.color_direction then
    ⟨st.start_led, (st.color_index + 1) % 12⟩
  else if settings.color_direction < 0 then
    ⟨st.start_led, (st.color_index - 1 + 12) % 12⟩
  else
    st

/-- C7: stepping the leading LED index with direction `+1` from 143
yields 0 and with direction `-1` from 0 yields 143; the color phase
index wraps the same way modulo 12; and with direction 0 both step
operations leave the state unchanged. -/
theorem C7_state_wraparound :
    (∀ ci : Int, (State.step_leds ⟨143, ci⟩ ⟨1, 0, 0, 0⟩).start_led = 0) ∧
    (∀ ci : Int, (State.step_leds ⟨0, ci⟩ ⟨-1, 0, 0, 0⟩).start_led = 143) ∧
    (∀ sl : Int, (State.step_color ⟨sl, 11⟩ ⟨0, 0, 1, 0⟩).color_index = 0) ∧
    (∀ sl : Int, (State.step_color ⟨sl, 0⟩ ⟨0, 0, -1, 0⟩).color_index = 11) ∧
    (∀ st : State, State.step_leds st ⟨0, 0, 0, 0⟩ = st ∧
      State.step_color st ⟨0, 0, 0, 0⟩ = st) := by
  refine ⟨fun ci => ?_, fun ci => ?_, fun sl => ?_, fun sl => ?_, fun st => ⟨?_, ?_⟩⟩ <;>
    simp [State.step_leds, State.step_color]

/-- The hand-authored intensity progression from `setup()` (lines
53-66), with `MAX_INTENSITY = 30` and `MEDIUM_INTENSITY = 30 / 4`. -/
def intensity_progression : List Nat :=
  [30 / 4, 30, 30, 30, 30, 30, 30 / 4, 0, 0, 0, 0, 0]

/-- Array store `a[i] = v` for the color tables. -/
def setArr (a : Nat → Nat) (i : Nat) (v : Nat) : Nat → Nat :=
  fun j => if j = i then v else a j

/-- The color-table construction loop in `setup()` (lines 72-76), with
`shift = 4`: for each `i < 12`,
`green[(i + 0*shift) % 12] = p[i]; red[(i + 1*shift) % 12] = p[i];
 blue[(i + 2*shift) % 12] = p[i]`.  The three global `uint8_t` arrays
start zero-initialized. -/
def colorTables : (Nat → Nat) × (Nat → Nat) × (Nat → Nat) :=
  (List.range 12).foldl
    (fun t i =>
      (setArr t.1 ((i + 0 * 4) % 12) (intensity_progression.getD i 0),
       setArr t.2.1 ((i + 1 * 4) % 12) (intensity_progression.getD i 0),
       setArr t.2.2 ((i + 2 * 4) % 12) (intensity_progression.getD i 0)))
    (fun _ => 0, fun _ => 0, fun _ => 0)

/-- The `green` intensity table. -/
def green : Nat → Nat := colorTables.1

/-- The `red` intensity table. -/
def red : Nat → Nat := colorTables.2.1

/-- The `blue` intensity table. -/
def blue : Nat → Nat := colorTables.2.2

/-- C9: the constructed color table has green at maximum intensity (30)
at slots 1-5, red at slots 5-9, and blue at slots 9, 10, 11, 0, 1; each
band has medium-intensity (7) entries at its two edge slots (green: 0
and 6; red: 4 and 10; blue: 8 and 2) and zero everywhere else. -/
theorem C9_color_table_pattern :
    (∀ j : Fin 12, green j.val =
      if 1 ≤ j.val ∧ j.val ≤ 5 then 30
      else if j.val = 0 ∨ j.val = 6 then 7 else 0) ∧
    (∀ j : Fin 12, red j.val =
      if 5 ≤ j.val ∧ j.val ≤ 9 then 30
      else if j.val = 4 ∨ j.val = 10 then 7 else 0) ∧
    (∀ j : Fin 12, blue j.val =
      if 9 ≤ j.val ∨ j.val ≤ 1 then 30
      else if j.val = 2 ∨ j.val = 8 then 7 else 0) := by
  decide

/-- An RGB triple as stored in the `leds` array (`CRGB(r, g, b)`). -/
structure CRGB where
  r : Nat
  g : Nat
  b : Nat
deriving Repr, DecidableEq

/-- `CRGB::Black`. -/
def CRGB.Black : CRGB := ⟨0, 0, 0⟩

/-- Array store `leds[pos] = c`; the LED buffer is modelled as a total
function from index to color. -/
def setLed (buf : Nat → CRGB) (pos : Nat) (c : CRGB) : Nat → CRGB :=
  fun j => if j = pos then c else buf j

/-- The buffer index `(state.start_led + i) % NUM_LEDS` used by the
clear loop (line 261), computed in C++ `int` arithmetic. -/
def ledIndex (start : Int) (i : Nat) : Nat :=
  ((start + i) % 144).toNat

/-- `uint8_t led_pos = (state.start_led + i) % NUM_LEDS` (line 285):
the `int` remainder is additionally truncated to `uint8_t`. -/
def ledIndexU8 (start : Int) (i : Nat) : Nat :=
  ((start + i) % 144 % 256).toNat

/-- The color-table slot `(state.color_index + i) % NUM_RAINBOW_LEDS`. -/
def colorIndex (ci : Int) (i : Nat) : Nat :=
  ((ci + i) % 12).toNat

/-- `uint8_t color_pos = (state.color_index + i) % NUM_RAINBOW_LEDS`
(line 286), truncated to `uint8_t`. -/
def colorIndexU8 (ci : Int) (i : Nat) : Nat :=
  ((ci + i) % 12 % 256).toNat

lemma ledIndexU8_eq (start : Int) (i : Nat) :
    ledIndexU8 start i = ledIndex start i := by
  unfold ledIndexU8 ledIndex
  omega

lemma colorIndexU8_eq (ci : Int) (i : Nat) :
    colorIndexU8 ci i = colorIndex ci i := by
  unfold colorIndexU8 colorIndex
  omega

/-- The "Turn off LEDs" loop at the top of `loop()` (lines 260-262):
the WINDOW_LENGTH LEDs starting at the current (pre-update) leading
index are set to `CRGB::Black`. -/
def clearWindow (st : State) (buf : Nat → CRGB) : Nat → CRGB :=
  (List.range 12).foldl
    (fun acc i => setLed acc (ledIndex st.start_led i) CRGB.Black) buf

/-- The "Set the LED colors" loop of `loop()` (lines 284-288): the
WINDOW_LENGTH LEDs starting at the (post-update) leading index receive
the color-table entries at slots `(color_index + i) % 12`. -/
def drawWindow (st : State) (buf : Nat → CRGB) : Nat → CRGB :=
  (List.range 12).foldl
    (fun acc i =>
      setLed acc (ledIndexU8 st.start_led i)
        ⟨red (colorIndexU8 st.color_index i),
         green (colorIndexU8 st.color_index i),
         blue (colorIndexU8 st.color_index i)⟩) buf

/-- `Settings::get_settings` (lines 169-181), with the two raw pot
samples passed explicitly: reads both pots through the auto-calibrating
readers and decodes them.  Returns the settings together with the two
updated reader states. -/
def get_settings (steps_s color_s : ARState) (movement_raw color_raw : Int) :
    Settings × ARState × ARState :=
  let movement := get_value 1023 steps_s movement_raw
  let color := get_value 1023 color_s color_raw
  let s := set_direction_and_speed movement.1
  let c := set_direction_and_speed color.1
  (⟨s.1, s.2, c.1, c.2⟩, movement.2, color.2)

/-- The trigger/state part of `loop()` (lines 268-281): compute the two
trigger levels with `reverse_and_expo`, store them (the `int` level is
converted to `uint32_t`), tick both triggers, and advance the state for
each trigger that fired.  Returns the new state and the two advanced
triggers. -/
noncomputable def loop_state_update (st : State)
    (steps_t color_t : CountTrigger) (settings : Settings) :
    State × CountTrigger × CountTrigger :=
  let steps_overflow_value := reverse_and_expo settings.steps_speed
  let color_overflow_value := reverse_and_expo settings.color_speed
  let st1 := steps_t.set_trigger_level (steps_overflow_value % 2 ^ 32).toNat
  let ct1 := color_t.set_trigger_level (color_overflow_value % 2 ^ 32).toNat
  let t1 := st1.tick
  let s1 := if t1.1 then st.step_leds settings else st
  let t2 := ct1.tick
  let s2 := if t2.1 then s1.step_color settings else s1
  (s2, t1.2, t2.2)

/-- The process-wide mutable state used by `loop()`: the two reader
calibrations, the animation state, the two triggers and the LED
buffer. -/
structure Globals where
  steps_reader : ARState
  color_reader : ARState
  state : State
  steps_trigger : CountTrigger
  color_trigger : CountTrigger
  leds : Nat → CRGB

/-- One iteration of `loop()` (lines 251-291), with this iteration's
two raw analog samples passed in: read the settings, clear the window
at the pre-update leading index, update triggers and state, then draw
the window at the post-update leading index. -/
noncomputable def loop_iter (g : Globals) (movement_raw color_raw : Int) :
    Globals :=
  let gs := get_settings g.steps_reader g.color_reader movement_raw color_raw
  let settings := gs.1
  let leds1 := clearWindow g.state g.leds
  let upd := loop_state_update g.state g.steps_trigger g.color_trigger settings
  let leds2 := drawWindow upd.1 leds1
  ⟨gs.2.1, gs.2.2, upd.1, upd.2.1, upd.2.2, leds2⟩

lemma foldl_setLed_not_target (n : Nat) (idx : Nat → Nat) (f : Nat → CRGB)
    (buf : Nat → CRGB) (j : Nat) (h : ∀ i, i < n → idx i ≠ j) :
    (List.range n).foldl (fun acc i => setLed acc (idx i) (f i)) buf j = buf j := by
  induction n with
  | zero => rfl
  | succ n ih =>
    rw [List.range_succ, List.foldl_append]
    simp only [List.foldl_cons, List.foldl_nil]
    have hne : j ≠ idx n := fun he => h n (by omega) he.symm
    show (if j = idx n then f n else
        (List.range n).foldl (fun acc i => setLed acc (idx i) (f i)) buf j) = buf j
    rw [if_neg hne]
    exact ih (fun i hi => h i (by omega))

lemma foldl_setLed_target (n : Nat) (idx : Nat → Nat) (f : Nat → CRGB)
    (buf : Nat → CRGB) (i : Nat) (hi : i < n)
    (hinj : ∀ i1 i2, i1 < n → i2 < n → idx i1 = idx i2 → i1 = i2) :
    (List.range n).foldl (fun acc k => setLed acc (idx k) (f k)) buf (idx i) = f i := by
  induction n with
  | zero => omega
  | succ n ih =>
    rw [List.range_succ, List.foldl_append]
    simp only [List.foldl_cons, List.foldl_nil]
    show (if idx i = idx n then f n else
        (List.range n).foldl (fun acc k => setLed acc (idx k) (f k)) buf (idx i)) = f i
    by_cases hcase : i = n
    · subst hcase
      rw [if_pos rfl]
    · have hne : idx i ≠ idx n := fun he => hcase (hinj i n (by omega) (by omega) he)
      rw [if_neg hne]
      have hi' : i < n := by omega
      exact ih hi' (fun i1 i2 h1 h2 he => hinj i1 i2 (by omega) (by omega) he)

lemma ledIndex_inj (start : Int) (h0 : 0 ≤ start) (h1 : start < 144) :
    ∀ i1 i2, i1 < 12 → i2 < 12 → ledIndex start i1 = ledIndex start i2 → i1 = i2 := by
  intro i1 i2 hi1 hi2 h
  unfold ledIndex at h
  omega

lemma State.step_leds_bounds (st : State) (settings : Settings)
    (h0 : 0 ≤ st.start_led) (h1 : st.start_led < 144)
    (h2 : 0 ≤ st.color_index) (h3 : st.color_index < 12) :
    0 ≤ (st.step_leds settings).start_led ∧
    (st.step_leds settings).start_led < 144 ∧
    0 ≤ (st.step_leds settings).color_index ∧
    (st.step_leds settings).color_index < 12 := by
  unfold step_leds
  split_ifs <;> simp_all <;> omega

lemma State.step_color_bounds (st : State) (settings : Settings)
    (h0 : 0 ≤ st.start_led) (h1 : st.start_led < 144)
    (h2 : 0 ≤ st.color_index) (h3 : st.color_index < 12) :
    0 ≤ (st.step_color settings).start_led ∧
    (st.step_color settings).start_led < 144 ∧
    0 ≤ (st.step_color settings).color_index ∧
    (st.step_color settings).color_index < 12 := by
  unfold step_color
  split_ifs <;> simp_all <;> omega

lemma loop_state_update_bounds (st : State)
    (steps_t color_t : CountTrigger) (settings : Settings)
    (h0 : 0 ≤ st.start_led) (h1 : st.start_led < 144)
    (h2 : 0 ≤ st.color_index) (h3 : st.color_index < 12) :
    0 ≤ (loop_state_update st steps_t color_t settings).1.start_led ∧
    (loop_state_update st steps_t color_t settings).1.start_led < 144 ∧
    0 ≤ (loop_state_update st steps_t color_t settings).1.color_index ∧
    (loop_state_update st steps_t color_t settings).1.color_index < 12 := by
  simp only [loop_state_update]
  split_ifs
  · exact State.step_color_bounds _ _
      (State.step_leds_bounds st settings h0 h1 h2 h3).1
      (State.step_leds_bounds st settings h0 h1 h2 h3).2.1
      (State.step_leds_bounds st settings h0 h1 h2 h3).2.2.1
      (State.step_leds_bounds st settings h0 h1 h2 h3).2.2.2
  · exact State.step_color_bounds st settings h0 h1 h2 h3
  · exact State.step_leds_bounds st settings h0 h1 h2 h3
  · exact ⟨h0, h1, h2, h3⟩

lemma loop_iter_state_eq (g : Globals) (movement_raw color_raw : Int) :
    (loop_iter g movement_raw color_raw).state =
      (loop_state_update g.state g.steps_trigger g.color_trigger
        (get_settings g.steps_reader g.color_reader movement_raw color_raw).1).1 :=
  rfl

lemma loop_iter_leds_eq (g : Globals) (movement_raw color_raw : Int) :
    (loop_iter g movement_raw color_raw).leds =
      drawWindow (loop_iter g movement_raw color_raw).state
        (clearWindow g.state g.leds) :=
  rfl

/-- C8: in every loop iteration (from a state with in-range indices),
the buffer is updated by first clearing the 12 LEDs of the window at
the pre-update leading index to black and then writing the 12 LEDs of
the window at the post-update leading index, where the LED at offset
`i` receives the color-table entry at slot
`(color phase index + i) mod 12`.  Concretely: (a) each LED of the
post-update window holds the table color for its offset; (b) an LED in
neither window keeps its previous color; (c) an LED of the pre-update
window that is not overdrawn by the post-update window is black. -/
theorem C8_render_order (g : Globals) (movement_raw color_raw : Int)
    (h0 : 0 ≤ g.state.start_led) (h1 : g.state.start_led < 144)
    (h2 : 0 ≤ g.state.color_index) (h3 : g.state.color_index < 12) :
    (∀ i, i < 12 →
      (loop_iter g movement_raw color_raw).leds
          (ledIndex (loop_iter g movement_raw color_raw).state.start_led i) =
        ⟨red (colorIndex (loop_iter g movement_raw color_raw).state.color_index i),
         green (colorIndex (loop_iter g movement_raw color_raw).state.color_index i),
         blue (colorIndex (loop_iter g movement_raw color_raw).state.color_index i)⟩) ∧
    (∀ j,
      (∀ i, i < 12 →
        ledIndex (loop_iter g movement_raw color_raw).state.start_led i ≠ j) →
      (∀ i, i < 12 → ledIndex g.state.start_led i ≠ j) →
      (loop_iter g movement_raw color_raw).leds j = g.leds j) ∧
    (∀ j,
      (∀ i, i < 12 →
        ledIndex (loop_iter g movement_raw color_raw).state.start_led i ≠ j) →
      (∃ i, i < 12 ∧ ledIndex g.state.start_led i = j) →
      (loop_iter g movement_raw color_raw).leds j = CRGB.Black) := by
  have hb : 0 ≤ (loop_iter g movement_raw color_raw).state.start_led ∧
      (loop_iter g movement_raw color_raw).state.start_led < 144 ∧
      0 ≤ (loop_iter g movement_raw color_raw).state.color_index ∧
      (loop_iter g movement_raw color_raw).state.color_index < 12 := by
    rw [loop_iter_state_eq]
    exact loop_state_update_bounds _ _ _ _ h0 h1 h2 h3
  have hinj_post := ledIndex_inj _ hb.1 hb.2.1
  have hinj_pre := ledIndex_inj _ h0 h1
  refine ⟨?_, ?_, ?_⟩
  · intro i hi
    rw [loop_iter_leds_eq]
    unfold drawWindow
    simp only [← ledIndexU8_eq, ← colorIndexU8_eq]
    exact foldl_setLed_target 12
      (fun k => ledIndexU8 (loop_iter g movement_raw color_raw).state.start_led k)
      (fun k =>
        ⟨red (colorIndexU8 (loop_iter g movement_raw color_raw).state.color_index k),
         green (colorIndexU8 (loop_iter g movement_raw color_raw).state.color_index k),
         blue (colorIndexU8 (loop_iter g movement_raw color_raw).state.color_index k)⟩)
      (clearWindow g.state g.leds) i hi
      (fun i1 i2 hi1 hi2 he => hinj_post i1 i2 hi1 hi2 (by
        have he2 : ledIndexU8
            (loop_iter g movement_raw color_raw).state.start_led i1 =
          ledIndexU8 (loop_iter g movement_raw color_raw).state.start_led i2 := he
        rwa [ledIndexU8_eq, ledIndexU8_eq] at he2))
  · intro j hpost hpre
    rw [loop_iter_leds_eq]
    unfold drawWindow
    have hdraw := foldl_setLed_not_target 12
      (fun k => ledIndexU8 (loop_iter g movement_raw color_raw).state.start_led k)
      (fun k =>
        ⟨red (colorIndexU8 (loop_iter g movement_raw color_raw).state.color_index k),
         green (colorIndexU8 (loop_iter g movement_raw color_raw).state.color_index k),
         blue (colorIndexU8 (loop_iter g movement_raw color_raw).state.color_index k)⟩)
      (clearWindow g.state g.leds) j
      (fun i hi => by
        show ledIndexU8 (loop_iter g movement_raw color_raw).state.start_led i ≠ j
        rw [ledIndexU8_eq]; exact hpost i hi)
    rw [hdraw]
    unfold clearWindow
    exact foldl_setLed_not_target 12
      (fun k => ledIndex g.state.start_led k)
      (fun _ => CRGB.Black) g.leds j hpre
  · intro j hpost hpre
    rw [loop_iter_leds_eq]
    unfold drawWindow
    have hdraw := foldl_setLed_not_target 12
      (fun k => ledIndexU8 (loop_iter g movement_raw color_raw).state.start_led k)
      (fun k =>
        ⟨red (colorIndexU8 (loop_iter g movement_raw color_raw).state.color_index k),
         green (colorIndexU8 (loop_iter g movement_raw color_raw).state.color_index k),
         blue (colorIndexU8 (loop_iter g movement_raw color_raw).state.color_index k)⟩)
      (clearWindow g.state g.leds) j
      (fun i hi => by
        show ledIndexU8 (loop_iter g movement_raw color_raw).state.start_led i ≠ j
        rw [ledIndexU8_eq]; exact hpost i hi)
    rw [hdraw]
    obtain ⟨i, hi, rfl⟩ := hpre
    unfold clearWindow
    exact foldl_setLed_target 12
      (fun k => ledIndex g.state.start_led k)
      (fun _ => CRGB.Black) g.leds i hi hinj_pre

/-- C8 witness: the render-order theorem instantiated with a concrete
global state (all indices 0, an all-black buffer, fresh readers and
triggers) and centered pot samples. -/
theorem C8_render_order_witness :
    (∀ i, i < 12 →
      (loop_iter ⟨ARState.init, ARState.init, ⟨0, 0⟩, CountTrigger.init,
          CountTrigger.init, fun _ => CRGB.Black⟩ 512 512).leds
          (ledIndex (loop_iter ⟨ARState.init, ARState.init, ⟨0, 0⟩, CountTrigger.init,
            CountTrigger.init, fun _ => CRGB.Black⟩ 512 512).state.start_led i) =
        ⟨red (colorIndex (loop_iter ⟨ARState.init, ARState.init, ⟨0, 0⟩, CountTrigger.init,
            CountTrigger.init, fun _ => CRGB.Black⟩ 512 512).state.color_index i),
         green (colorIndex (loop_iter ⟨ARState.init, ARState.init, ⟨0, 0⟩, CountTrigger.init,
            CountTrigger.init, fun _ => CRGB.Black⟩ 512 512).state.color_index i),
         blue (colorIndex (loop_iter ⟨ARState.init, ARState.init, ⟨0, 0⟩, CountTrigger.init,
            CountTrigger.init, fun _ => CRGB.Black⟩ 512 512).state.color_index i)⟩) ∧
    (∀ j,
      (∀ i, i < 12 →
        ledIndex (loop_iter ⟨ARState.init, ARState.init, ⟨0, 0⟩, CountTrigger.init,
          CountTrigger.init, fun _ => CRGB.Black⟩ 512 512).state.start_led i ≠ j) →
      (∀ i, i < 12 → ledIndex (0 : Int) i ≠ j) →
      (loop_iter ⟨ARState.init, ARState.init, ⟨0, 0⟩, CountTrigger.init,
        CountTrigger.init, fun _ => CRGB.Black⟩ 512 512).leds j = CRGB.Black) ∧
    (∀ j,
      (∀ i, i < 12 →
        ledIndex (loop_iter ⟨ARState.init, ARState.init, ⟨0, 0⟩, CountTrigger.init,
          CountTrigger.init, fun _ => CRGB.Black⟩ 512 512).state.start_led i ≠ j) →
      (∃ i, i < 12 ∧ ledIndex (0 : Int) i = j) →
      (loop_iter ⟨ARState.init, ARState.init, ⟨0, 0⟩, CountTrigger.init,
        CountTrigger.init, fun _ => CRGB.Black⟩ 512 512).leds j = CRGB.Black) :=
  C8_render_order ⟨ARState.init, ARState.init, ⟨0, 0⟩, CountTrigger.init,
    CountTrigger.init, fun _ => CRGB.Black⟩ 512 512
    (by decide) (by decide) (by decide) (by decide)

end LedWorm
